import Mathlib

/-!
Verification of the verifier service (`vcxagent-core/src/services/service-verifier.js`)
against its natural-language specification.

The service functions (`createProof`, `sendProofRequest`, `proofUpdate`,
`getState`, `listIds`, `printInfo`, `getVcxProof`) are shallowly embedded
from the JavaScript source.  The injected collaborators (`loadConnection`,
`saveProof`, `loadProof`, `listProofIds`, the logger) and the native
`Proof` object from `@hyperledger/node-vcx-wrapper` are not part of the
repository excerpt; they are modelled from the specification's contracts
(`spec.md` sections 4.1-4.3 and 6) and marked as such in doc comments.

Effects (logging, the `sleep` call, store and connection accesses) are
recorded as an ordered event trace inside the service state, so that
ordering claims (what runs before what, what is never touched on a failed
call) are stated faithfully.
-/

set_option autoImplicit false

namespace ServiceVerifier

/-- Lifecycle stages of a proof exchange, from the spec's state machine
(section 4.3). -/
inductive ProofState where
  | INITIAL
  | REQUEST_SENT
  | PRESENTATION_RECEIVED
  | VERIFIED
  | REJECTED
  | FAILED
deriving DecidableEq

/-- Printable name of a state, used in diagnostic log lines. -/
def ProofState.str : ProofState → String
  | .INITIAL => "Initial"
  | .REQUEST_SENT => "RequestSent"
  | .PRESENTATION_RECEIVED => "PresentationReceived"
  | .VERIFIED => "Verified"
  | .REJECTED => "Rejected"
  | .FAILED => "Failed"

/-- Error kinds of the service (spec section 7). -/
inductive VcxError where
  | NotFound (id : String)
  | DuplicateId (id : String)
  | TransportError (detail : String)
  | ValidationError (detail : String)
  | InvalidState (detail : String)
deriving DecidableEq

/-- A message from the counterparty that a poll may pick up
(spec section 4.3 transition table). -/
inductive IncomingMsg where
  | validPresentation
  | declinedPresentation
deriving DecidableEq

/-- Modelled from the spec: a connection handle returned by the external
`ConnectionResolver` (section 4.2), "usable for sending/receiving protocol
messages".  Its pending counterparty message, if any, is what a poll sees. -/
structure Connection where
  connId : String
  inbox : Option IncomingMsg
deriving DecidableEq

/-- Modelled from the spec: the `ProofExchangeRecord` (section 3), the unit
persisted by the store.  `proofRequestMessage` is "computed once per
request, cached", hence an `Option` that is `none` until `requestProof`. -/
structure ProofRecord where
  proofData : String
  state : ProofState
  proofRequestMessage : Option String
  lastError : Option String
deriving DecidableEq

/-- Modelled from the spec: serialization of the proof-request protocol
message built from the caller-supplied criteria (section 3,
`proofRequestMessage`). -/
def mkProofRequestMessage (proofData : String) : String :=
  "proof-request/" ++ proofData

/-- Modelled from the spec: `Proof.create(proofData)` of the native wrapper;
per the transition table, `create(proofData)` yields a fresh record in
`INITIAL` with the internal payload built from the caller's criteria. -/
def ProofRecord.create (proofData : String) : ProofRecord :=
  { proofData := proofData
    state := .INITIAL
    proofRequestMessage := none
    lastError := none }

/-- Modelled from the spec: `requestProof(connection)` of the native proof
object; transition `INITIAL → REQUEST_SENT`, generating and caching the
`proofRequestMessage` and dispatching it via the connection. -/
def ProofRecord.requestProof (p : ProofRecord) (_c : Connection) :
    Except VcxError ProofRecord :=
  match p.state with
  | .INITIAL =>
      .ok { p with
              state := .REQUEST_SENT
              proofRequestMessage := some (mkProofRequestMessage p.proofData) }
  | s => .error (.InvalidState ("requestProof from state " ++ s.str))

/-- Modelled from the spec: `getState()` of the native proof object, a pure
read of the record's lifecycle stage (section 4.3). -/
def ProofRecord.getState (p : ProofRecord) : ProofState :=
  p.state

/-- Modelled from the spec: `getProofRequestMessage()` of the native proof
object.  Returns the cached serialized message together with the record
after the call; the message is never re-generated or re-sent (section 4.3). -/
def ProofRecord.getProofRequestMessage (p : ProofRecord) :
    Except VcxError String × ProofRecord :=
  match p.proofRequestMessage with
  | some m => (.ok m, p)
  | none => (.error (.InvalidState "no proof request message generated"), p)

/-- Modelled from the spec: `updateStateV2(connection)` of the native proof
object, the poll of the transition table (section 4.3): in `REQUEST_SENT`,
a valid presentation moves the record to `VERIFIED`, a decline to
`REJECTED` with the failure reason cached, and no new message is a no-op.
Returns the updated record and the resulting state. -/
def ProofRecord.updateStateV2 (p : ProofRecord) (c : Connection) :
    ProofRecord × ProofState :=
  match p.state, c.inbox with
  | .REQUEST_SENT, some .validPresentation =>
      ({ p with state := .VERIFIED }, .VERIFIED)
  | .REQUEST_SENT, some .declinedPresentation =>
      ({ p with state := .REJECTED, lastError := some "presentation declined" },
        .REJECTED)
  | _, _ => (p, p.state)

/-- One observable effect of a service call, recorded in order: log lines,
the settling sleep, and every access to the injected collaborators. -/
inductive Event where
  | logInfo (msg : String)
  | logWarn (msg : String)
  | sleepMs (ms : Nat)
  | proofCreate
  | storeRead (proofId : String)
  | storeWrite (proofId : String)
  | connRead (connId : String)
deriving DecidableEq

/-- The world the service closure operates over: the connection resolver's
table (read-only for this service), the proof store, and the event trace. -/
structure ServiceState where
  connections : List (String × Connection)
  proofs : List (String × ProofRecord)
  events : List Event
deriving DecidableEq

/-- First-match lookup in an association list keyed by strings. -/
def alookup {α : Type} : List (String × α) → String → Option α
  | [], _ => none
  | (k, v) :: rest, key => if k = key then some v else alookup rest key

/-- Overwrite-or-append update of an association list (the store's
`save(proofId, record)` "persists or overwrites atomically", spec 4.1). -/
def aupsert {α : Type} : List (String × α) → String → α → List (String × α)
  | [], key, v => [(key, v)]
  | (k, v') :: rest, key, v =>
      if k = key then (key, v) :: rest else (k, v') :: aupsert rest key v

/-- Append one event to the trace. -/
def emit (st : ServiceState) (e : Event) : ServiceState :=
  { st with events := st.events ++ [e] }

/-- Modelled from the spec: the injected `loadConnection(connectionId)`
collaborator (section 6): returns a connection handle or fails `NotFound`. -/
def loadConnection (st : ServiceState) (connectionId : String) :
    Except VcxError Connection × ServiceState :=
  let st := emit st (.connRead connectionId)
  match alookup st.connections connectionId with
  | some c => (.ok c, st)
  | none => (.error (.NotFound connectionId), st)

/-- Modelled from the spec: the injected `loadProof(proofId)` collaborator
(section 6): returns the stored record or fails `NotFound`. -/
def loadProof (st : ServiceState) (proofId : String) :
    Except VcxError ProofRecord × ServiceState :=
  let st := emit st (.storeRead proofId)
  match alookup st.proofs proofId with
  | some p => (.ok p, st)
  | none => (.error (.NotFound proofId), st)

/-- Modelled from the spec: the injected `saveProof(proofId, record)`
collaborator (sections 4.1 and 6): persists or overwrites. -/
def saveProof (st : ServiceState) (proofId : String) (p : ProofRecord) :
    ServiceState :=
  let st := emit st (.storeWrite proofId)
  { st with proofs := aupsert st.proofs proofId p }

/-- Modelled from the spec: the injected `listProofIds()` collaborator
(section 6): all known ids of the store. -/
def listProofIds (st : ServiceState) : List String :=
  st.proofs.map (fun kv => kv.1)

/-- `createProof(proofId, proofData)` from the source: log, `sleep(1000)`,
`Proof.create(proofData)`, `saveProof(proofId, proof)`, return the proof. -/
def createProof (st : ServiceState) (proofId : String) (proofData : String) :
    Except VcxError ProofRecord × ServiceState :=
  let st := emit st (.logInfo
    ("Verifier creating proof " ++ proofId ++ ", proofData=" ++ proofData))
  let st := emit st (.sleepMs 1000)
  let st := emit st .proofCreate
  let proof := ProofRecord.create proofData
  let st := saveProof st proofId proof
  (.ok proof, st)

/-- `sendProofRequest(connectionId, proofId)` from the source: load the
connection, load the proof, `requestProof(connection)`, read `getState` and
`getProofRequestMessage`, save the proof, return both.  A rejected await
propagates, aborting the rest of the body. -/
def sendProofRequest (st : ServiceState) (connectionId : String)
    (proofId : String) : Except VcxError (ProofState × String) × ServiceState :=
  match loadConnection st connectionId with
  | (.error e, st) => (.error e, st)
  | (.ok connection, st) =>
    match loadProof st proofId with
    | (.error e, st) => (.error e, st)
    | (.ok proof, st) =>
      match proof.requestProof connection with
      | .error e => (.error e, st)
      | .ok proof =>
        let state := proof.getState
        match proof.getProofRequestMessage with
        | (.error e, _) => (.error e, st)
        | (.ok proofRequestMessage, proof) =>
          let st := saveProof st proofId proof
          (.ok (state, proofRequestMessage), st)

/-- `proofUpdate(proofId, connectionId)` from the source: load the proof,
load the connection, `updateStateV2(connection)`, save, return the state. -/
def proofUpdate (st : ServiceState) (proofId : String)
    (connectionId : String) : Except VcxError ProofState × ServiceState :=
  match loadProof st proofId with
  | (.error e, st) => (.error e, st)
  | (.ok proof, st) =>
    match loadConnection st connectionId with
    | (.error e, st) => (.error e, st)
    | (.ok connection, st) =>
      let (proof, state) := proof.updateStateV2 connection
      let st := saveProof st proofId proof
      (.ok state, st)

/-- `getState(proofId)` from the source: load the proof, return
`proof.getState()`. -/
def getState (st : ServiceState) (proofId : String) :
    Except VcxError ProofState × ServiceState :=
  match loadProof st proofId with
  | (.error e, st) => (.error e, st)
  | (.ok proof, st) => (.ok proof.getState, st)

/-- `listIds()` from the source: delegates to the injected `listProofIds`. -/
def listIds (st : ServiceState) : List String × ServiceState :=
  (listProofIds st, st)

/-- `printInfo(connectionIds)` from the source: a `for ... of` loop calling
`getState(id)` and logging the result.  There is no `try`/`catch` around
the body, so a rejected `getState` propagates out of the loop. -/
def printInfo (st : ServiceState) (connectionIds : List String) :
    Except VcxError Unit × ServiceState :=
  match connectionIds with
  | [] => (.ok (), st)
  | id :: rest =>
    match getState st id with
    | (.error e, st) => (.error e, st)
    | (.ok state, st) =>
      let st := emit st (.logInfo ("Proof " ++ id ++ " state=" ++ state.str))
      printInfo st rest

/-- `getVcxProof(proofId)` from the source: warn, then return
`loadProof(proofId)` unchanged. -/
def getVcxProof (st : ServiceState) (proofId : String) :
    Except VcxError ProofRecord × ServiceState :=
  let st := emit st (.logWarn
    "Usage of getVcxProof is not recommended. You should use vcxagent-core API rather than work with vcx object directly.")
  loadProof st proofId

end ServiceVerifier

namespace ServiceVerifier

/-! ### Association-list lemmas -/

theorem alookup_aupsert_self {α : Type} (l : List (String × α)) (k : String)
    (v : α) : alookup (aupsert l k v) k = some v := by
  induction l with
  | nil => simp [aupsert, alookup]
  | cons kv rest ih =>
      obtain ⟨k1, v1⟩ := kv
      by_cases h : k1 = k <;> simp [aupsert, alookup, h, ih]

theorem aupsert_self {α : Type} (l : List (String × α)) (k : String) (v : α)
    (h : alookup l k = some v) : aupsert l k v = l := by
  induction l with
  | nil => simp [alookup] at h
  | cons kv rest ih =>
      obtain ⟨k1, v1⟩ := kv
      by_cases hk : k1 = k
      · simp [alookup, hk] at h
        simp [aupsert, hk, h]
      · simp [alookup, hk] at h
        simp [aupsert, hk, ih h]

/-- A successful `requestProof` always caches the generated message on the
returned record. -/
theorem requestProof_ok_message {p q : ProofRecord} {c : Connection}
    (h : p.requestProof c = .ok q) :
    q = { p with state := .REQUEST_SENT,
                 proofRequestMessage := some (mkProofRequestMessage p.proofData) } := by
  unfold ProofRecord.requestProof at h
  cases hps : p.state <;> rw [hps] at h <;> simp_all

/-! ### Concrete fixtures used by counterexamples and witnesses -/

def exConn : Connection := { connId := "conn1", inbox := none }

def exRecordSent : ProofRecord :=
  { proofData := "d0", state := .REQUEST_SENT,
    proofRequestMessage := some "m0", lastError := none }

def exRecordInit : ProofRecord := ProofRecord.create "dI"

def exState : ServiceState :=
  { connections := [("conn1", exConn)], proofs := [("p1", exRecordSent)],
    events := [] }

def exState2 : ServiceState :=
  { connections := [("conn1", exConn)], proofs := [("pI", exRecordInit)],
    events := [] }

def exEmpty : ServiceState :=
  { connections := [], proofs := [], events := [] }

/-- Is an event the settling sleep? -/
def isSleep : Event → Bool
  | .sleepMs _ => true
  | _ => false

/-- The tail of a trace strictly after the first record-creation event. -/
def afterCreate : List Event → List Event
  | [] => []
  | .proofCreate :: rest => rest
  | _ :: rest => afterCreate rest

end ServiceVerifier

namespace ServiceVerifier

/-! ### Claim C1 -/

/-- Claim C1 as stated is false: with `"p1"` already present in the proof
store (holding `exRecordSent`), `createProof` does not fail with
`DuplicateId`; it succeeds and overwrites the stored record with a fresh
one that differs from the pre-existing record. -/
theorem c1_counterexample :
    (createProof exState "p1" "d1").1 = .ok (ProofRecord.create "d1") ∧
    alookup (createProof exState "p1" "d1").2.proofs "p1"
      = some (ProofRecord.create "d1") ∧
    ProofRecord.create "d1" ≠ exRecordSent := by
  refine ⟨rfl, rfl, ?_⟩
  decide

/-- Claim C1, amended: `createProof(proofId, proofData)` never checks for an
existing record.  For every store state and every `proofId`, fresh or
already present, it constructs a new record in `INITIAL` state, persists it
under `proofId` (overwriting any existing record), and returns it. -/
theorem c1_createProof_overwrites (st : ServiceState) (proofId : String)
    (proofData : String) :
    (createProof st proofId proofData).1 = .ok (ProofRecord.create proofData) ∧
    alookup (createProof st proofId proofData).2.proofs proofId
      = some (ProofRecord.create proofData) ∧
    (ProofRecord.create proofData).state = .INITIAL := by
  refine ⟨rfl, ?_, rfl⟩
  simp [createProof, saveProof, emit, alookup_aupsert_self]

/-! ### Claim C2 -/

/-- Claim C2 as stated is false: with `"p1"` present in the store,
`printInfo ["nope", "p1"]` fails at the unknown id `"nope"` and never
processes `"p1"`: the trace shows a single store read (for `"nope"`) and no
diagnostic log line for `"p1"`. -/
theorem c2_counterexample :
    (printInfo exState ["nope", "p1"]).1 = .error (.NotFound "nope") ∧
    (printInfo exState ["nope", "p1"]).2.events = [.storeRead "nope"] := by
  exact ⟨rfl, rfl⟩

/-- Claim C2, amended: `printInfo` has no per-id error handling.  A failure
while reading the state of the first failing id propagates out of the loop
immediately: the batch returns that error with the state as of the failure,
and the remaining ids are not processed. -/
theorem c2_printInfo_aborts (st : ServiceState) (id : String)
    (rest : List String) (e : VcxError)
    (h : (getState st id).1 = .error e) :
    printInfo st (id :: rest) = (.error e, (getState st id).2) := by
  rw [printInfo]
  cases hg : getState st id with
  | mk r st2 =>
    rw [hg] at h
    cases r with
    | error e2 =>
        simp only at h
        cases h
        rfl
    | ok s => simp at h

/-- Witness for the amended C2 at a concrete input. -/
theorem c2_printInfo_aborts_witness :
    (getState exState "nope").1 = .error (.NotFound "nope") ∧
    printInfo exState ["nope", "p1"]
      = (.error (.NotFound "nope"), (getState exState "nope").2) :=
  ⟨rfl, c2_printInfo_aborts exState "nope" ["p1"] (.NotFound "nope") rfl⟩

end ServiceVerifier

namespace ServiceVerifier

/-! ### Claim C3 -/

/-- Claim C3 as stated is false: in the trace of a concrete `createProof`
call, the only sleep (`sleep(1000)`) occurs *before* the record-creation
step, so no settling delay is inserted between the creation of the proof
record and returning control; the delay is the hard-coded constant 1000 ms,
with no parameter of `createProof` controlling it. -/
theorem c3_counterexample :
    (createProof exEmpty "p1" "d1").2.events =
      [.logInfo "Verifier creating proof p1, proofData=d1",
       .sleepMs 1000, .proofCreate, .storeWrite "p1"] ∧
    (afterCreate (createProof exEmpty "p1" "d1").2.events).all
      (fun e => !isSleep e) = true := by
  exact ⟨rfl, rfl⟩

/-- Claim C3, amended: `createProof` inserts a fixed, hard-coded 1000 ms
sleep *before* the proof record is created (between the initial log line
and the `Proof.create` call), not between creation and return; the delay is
a magic constant identical for every input, not a configurable parameter. -/
theorem c3_createProof_sleep_is_fixed (st : ServiceState) (proofId : String)
    (proofData : String) :
    (createProof st proofId proofData).2.events = st.events ++
      [.logInfo ("Verifier creating proof " ++ proofId ++ ", proofData=" ++ proofData),
       .sleepMs 1000, .proofCreate, .storeWrite proofId] := by
  simp [createProof, saveProof, emit]

/-! ### Claim C4 -/

/-- Claim C4: when the `connectionId` does not resolve, `sendProofRequest`
fails with that id's `NotFound` and the proof store is exactly what it was
before the call (in particular the record under `proofId`, if any, is
untouched; no partial transition is persisted). -/
theorem c4_sendProofRequest_connNotFound (st : ServiceState)
    (connectionId : String) (proofId : String)
    (h : alookup st.connections connectionId = none) :
    (sendProofRequest st connectionId proofId).1
      = .error (.NotFound connectionId) ∧
    (sendProofRequest st connectionId proofId).2.proofs = st.proofs := by
  constructor <;> simp [sendProofRequest, loadConnection, emit, h]

/-- Witness for C4 at a concrete input: the store still maps `"p1"` to its
prior record after the failed call. -/
theorem c4_witness :
    alookup exState.connections "ghost" = none ∧
    ((sendProofRequest exState "ghost" "p1").1 = .error (.NotFound "ghost") ∧
     (sendProofRequest exState "ghost" "p1").2.proofs = exState.proofs) :=
  ⟨rfl, c4_sendProofRequest_connNotFound exState "ghost" "p1" rfl⟩

end ServiceVerifier

namespace ServiceVerifier

/-! ### Claim C5 -/

/-- Claim C5: for resolvable ids (with the loaded record able to accept
`requestProof`, i.e. in `INITIAL`), `sendProofRequest` loads the connection
and the record, invokes `requestProof` on the record with that connection,
persists the updated record back under `proofId`, and returns the record's
new state together with its cached `proofRequestMessage`. -/
theorem c5_sendProofRequest_success (st : ServiceState)
    (connectionId : String) (proofId : String) (c : Connection)
    (p : ProofRecord)
    (hc : alookup st.connections connectionId = some c)
    (hp : alookup st.proofs proofId = some p)
    (hinit : p.state = .INITIAL) :
    ∃ q : ProofRecord,
      p.requestProof c = .ok q ∧
      (sendProofRequest st connectionId proofId).1
        = .ok (q.getState, mkProofRequestMessage p.proofData) ∧
      q.getState = .REQUEST_SENT ∧
      q.proofRequestMessage = some (mkProofRequestMessage p.proofData) ∧
      alookup (sendProofRequest st connectionId proofId).2.proofs proofId
        = some q := by
  refine ⟨{ p with state := .REQUEST_SENT, proofRequestMessage := some (mkProofRequestMessage p.proofData) }, ?_, ?_, rfl, rfl, ?_⟩
  · simp [ProofRecord.requestProof, hinit]
  · simp [sendProofRequest, loadConnection, loadProof, emit, hc, hp,
      ProofRecord.requestProof, hinit, ProofRecord.getState,
      ProofRecord.getProofRequestMessage, saveProof]
  · simp [sendProofRequest, loadConnection, loadProof, emit, hc, hp,
      ProofRecord.requestProof, hinit, ProofRecord.getState,
      ProofRecord.getProofRequestMessage, saveProof, alookup_aupsert_self]

/-- Witness for C5 at a concrete input: connection `"conn1"` and an
`INITIAL` record under `"pI"`. -/
theorem c5_witness :
    alookup exState2.connections "conn1" = some exConn ∧
    alookup exState2.proofs "pI" = some exRecordInit ∧
    exRecordInit.state = .INITIAL ∧
    ∃ q : ProofRecord,
      exRecordInit.requestProof exConn = .ok q ∧
      (sendProofRequest exState2 "conn1" "pI").1
        = .ok (q.getState, mkProofRequestMessage exRecordInit.proofData) ∧
      q.getState = .REQUEST_SENT ∧
      q.proofRequestMessage = some (mkProofRequestMessage exRecordInit.proofData) ∧
      alookup (sendProofRequest exState2 "conn1" "pI").2.proofs "pI" = some q :=
  ⟨rfl, rfl, rfl,
    c5_sendProofRequest_success exState2 "conn1" "pI" exConn exRecordInit rfl rfl rfl⟩

/-! ### Claim C6 -/

/-- Claim C6: polling a `REQUEST_SENT` record over a connection with no new
counterparty message is a no-op: `proofUpdate` returns the prior state and
the proof store is unchanged (the record is written back unmodified). -/
theorem c6_proofUpdate_noop (st : ServiceState) (proofId : String)
    (connectionId : String) (p : ProofRecord) (c : Connection)
    (hp : alookup st.proofs proofId = some p)
    (hc : alookup st.connections connectionId = some c)
    (hsent : p.state = .REQUEST_SENT)
    (hmsg : c.inbox = none) :
    (proofUpdate st proofId connectionId).1 = .ok p.state ∧
    (proofUpdate st proofId connectionId).2.proofs = st.proofs := by
  constructor
  · simp [proofUpdate, loadProof, loadConnection, emit, hp, hc,
      ProofRecord.updateStateV2, hsent, hmsg, saveProof]
  · simp [proofUpdate, loadProof, loadConnection, emit, hp, hc,
      ProofRecord.updateStateV2, hsent, hmsg, saveProof]
    exact aupsert_self st.proofs proofId p hp

/-- Witness for C6 at a concrete input: `"p1"` is `REQUEST_SENT` and
`"conn1"` has an empty inbox. -/
theorem c6_witness :
    alookup exState.proofs "p1" = some exRecordSent ∧
    alookup exState.connections "conn1" = some exConn ∧
    exRecordSent.state = .REQUEST_SENT ∧
    exConn.inbox = none ∧
    ((proofUpdate exState "p1" "conn1").1 = .ok exRecordSent.state ∧
     (proofUpdate exState "p1" "conn1").2.proofs = exState.proofs) :=
  ⟨rfl, rfl, rfl, rfl,
    c6_proofUpdate_noop exState "p1" "conn1" exRecordSent exConn rfl rfl rfl rfl⟩

/-! ### Claim C7 -/

/-- Claim C7: `getState(proofId)` is a pure read: the proof store and the
connection table are unchanged by the call, and it fails with `NotFound`
exactly when no record exists under `proofId`. -/
theorem c7_getState_pure (st : ServiceState) (proofId : String) :
    (getState st proofId).2.proofs = st.proofs ∧
    (getState st proofId).2.connections = st.connections ∧
    ((getState st proofId).1 = .error (.NotFound proofId) ↔
      alookup st.proofs proofId = none) := by
  cases h : alookup st.proofs proofId <;>
    simp [getState, loadProof, emit, h, ProofRecord.getState]

/-- Witness for C7 at a concrete input. -/
theorem c7_witness :
    (getState exState "p1").2.proofs = exState.proofs ∧
    (getState exState "p1").2.connections = exState.connections ∧
    ((getState exState "p1").1 = .error (.NotFound "p1") ↔
      alookup exState.proofs "p1" = none) :=
  c7_getState_pure exState "p1"

end ServiceVerifier

namespace ServiceVerifier

/-- The record obtained by running `requestProof` on `exRecordInit`. -/
def exRecordReq : ProofRecord :=
  { exRecordInit with
      state := .REQUEST_SENT
      proofRequestMessage := some (mkProofRequestMessage exRecordInit.proofData) }

/-! ### Claim C8 -/

/-- Claim C8: after `requestProof` has succeeded on a record, calling
`getProofRequestMessage` twice in succession returns the identical cached
message both times and leaves the record untouched (nothing is re-generated
or re-sent). -/
theorem c8_getProofRequestMessage_idempotent (p : ProofRecord)
    (c : Connection) (q : ProofRecord) (h : p.requestProof c = .ok q) :
    ∃ m : String,
      q.getProofRequestMessage = (.ok m, q) ∧
      (q.getProofRequestMessage.2).getProofRequestMessage = (.ok m, q) := by
  have hq := requestProof_ok_message h
  subst hq
  exact ⟨mkProofRequestMessage p.proofData, rfl, rfl⟩

/-- Witness for C8 at a concrete input. -/
theorem c8_witness :
    exRecordInit.requestProof exConn = .ok exRecordReq ∧
    ∃ m : String,
      exRecordReq.getProofRequestMessage = (.ok m, exRecordReq) ∧
      (exRecordReq.getProofRequestMessage.2).getProofRequestMessage
        = (.ok m, exRecordReq) :=
  ⟨rfl, c8_getProofRequestMessage_idempotent exRecordInit exConn exRecordReq rfl⟩

/-! ### Claim C9 -/

/-- Claim C9: `sendProofRequest` resolves the connection before touching the
proof store.  When both ids are unresolvable, the reported failure is the
connection lookup's `NotFound`, the store is unchanged, and the trace shows
exactly one connection read and no store read or write. -/
theorem c9_sendProofRequest_conn_first (st : ServiceState)
    (connectionId : String) (proofId : String)
    (hc : alookup st.connections connectionId = none)
    (_hp : alookup st.proofs proofId = none) :
    (sendProofRequest st connectionId proofId).1
      = .error (.NotFound connectionId) ∧
    (sendProofRequest st connectionId proofId).2.proofs = st.proofs ∧
    (sendProofRequest st connectionId proofId).2.events
      = st.events ++ [.connRead connectionId] := by
  refine ⟨?_, ?_, ?_⟩ <;> simp [sendProofRequest, loadConnection, emit, hc]

/-- Witness for C9 at a concrete input where neither id resolves. -/
theorem c9_witness :
    alookup exEmpty.connections "c9c" = none ∧
    alookup exEmpty.proofs "c9p" = none ∧
    ((sendProofRequest exEmpty "c9c" "c9p").1 = .error (.NotFound "c9c") ∧
     (sendProofRequest exEmpty "c9c" "c9p").2.proofs = exEmpty.proofs ∧
     (sendProofRequest exEmpty "c9c" "c9p").2.events
       = exEmpty.events ++ [.connRead "c9c"]) :=
  ⟨rfl, rfl, c9_sendProofRequest_conn_first exEmpty "c9c" "c9p" rfl rfl⟩

/-! ### Claim C10 -/

/-- Claim C10: `getVcxProof(proofId)` is a pure passthrough to the proof
store apart from one warning log line: it returns exactly the stored record
when present, fails with `NotFound` when absent, and changes neither the
store nor the connection table. -/
theorem c10_getVcxProof_passthrough (st : ServiceState) (proofId : String) :
    (getVcxProof st proofId).1 = (match alookup st.proofs proofId with
        | some p => .ok p
        | none => .error (.NotFound proofId)) ∧
    (getVcxProof st proofId).2.proofs = st.proofs ∧
    (getVcxProof st proofId).2.connections = st.connections ∧
    (getVcxProof st proofId).2.events = st.events ++
      [.logWarn "Usage of getVcxProof is not recommended. You should use vcxagent-core API rather than work with vcx object directly.",
       .storeRead proofId] := by
  cases h : alookup st.proofs proofId <;>
    simp [getVcxProof, loadProof, emit, h]

/-- Witness for C10 at a concrete input. -/
theorem c10_witness :
    (getVcxProof exState "p1").1 = (match alookup exState.proofs "p1" with
        | some p => .ok p
        | none => .error (.NotFound "p1")) ∧
    (getVcxProof exState "p1").2.proofs = exState.proofs ∧
    (getVcxProof exState "p1").2.connections = exState.connections ∧
    (getVcxProof exState "p1").2.events = exState.events ++
      [.logWarn "Usage of getVcxProof is not recommended. You should use vcxagent-core API rather than work with vcx object directly.",
       .storeRead "p1"] :=
  c10_getVcxProof_passthrough exState "p1"

end ServiceVerifier
